import Mathlib

/-!
Shallow embedding of the two scripts of the repository `chenhexu/AI_chatbot`:
`test-random-stuff.py` (the glyph script) and `testgeneration.py` (the image
script).  Strings of the Python source are embedded as lists of Unicode code
points (`List Nat`); the observable behaviour of each script is embedded as a
trace of effects; external operations (the generative-image API, image
display, stdout reconfiguration, printing) are oracles supplied as parameters.
-/

namespace Chatbot

/-- Python string repetition `s * n`: `n` copies of `s` concatenated. -/
def pyRepeat (s : List Nat) (n : Nat) : List Nat :=
  (List.replicate n s).flatten

/-- UTF-8 encoding of a single Unicode code point, as a list of bytes. -/
def utf8EncodeChar (c : Nat) : List Nat :=
  if c < 0x80 then [c]
  else if c < 0x800 then [0xC0 + c / 0x40, 0x80 + c % 0x40]
  else if c < 0x10000 then
    [0xE0 + c / 0x1000, 0x80 + (c / 0x40) % 0x40, 0x80 + c % 0x40]
  else
    [0xF0 + c / 0x40000, 0x80 + (c / 0x1000) % 0x40,
     0x80 + (c / 0x40) % 0x40, 0x80 + c % 0x40]

/-- UTF-8 encoding of a sequence of code points. -/
def utf8Encode (s : List Nat) : List Nat :=
  (s.map utf8EncodeChar).flatten

/-- A part of the generate-content response: whether it carries `inline_data`
(Python truthiness of the attribute), plus an identifier distinguishing it. -/
structure Part where
  inline_data : Bool
  id : Nat
deriving DecidableEq, Repr

/-- The response object returned by `client.models.generate_content`:
the script only reads its `parts` field. -/
structure Response where
  parts : List Part
deriving DecidableEq, Repr

/-- Externally observable effects either script can perform.  Constructors
for effects that neither script in fact performs (file writes, stdin reads,
environment reads) are included so that frame conditions are not vacuous. -/
inductive Effect where
  | reconfigureStdout (encoding : String)
  | printStdout (text : List Nat)
  | fileWrite (path : String) (data : List Nat)
  | readStdin
  | getEnvVar (name : String)
  | networkGenerateContent (model : String) (contents : String)
  | showImage (p : Part)
deriving DecidableEq, Repr

/-- The process environment a script could in principle observe: command-line
arguments, standard input, environment variables. -/
structure Env where
  argv : List String
  stdin : List Nat
  vars : List (String × String)

/-- Embeds `base`: the single Thai character ko kai, U+0E01. -/
def base : List Nat := [0xE01]

/-- Embeds `side_wall`: enclosing circle U+20DD, square U+20DE and diamond
U+20DF, each repeated 5 times, concatenated in that order. -/
def side_wall : List Nat :=
  pyRepeat [0x20DD] 5 ++ pyRepeat [0x20DE] 5 ++ pyRepeat [0x20DF] 5

/-- Embeds `up_stack`: Thai mai taikhu U+0E47 repeated 10 times, then the
6-mark Latin combining-above group repeated 3 times. -/
def up_stack : List Nat :=
  pyRepeat [0xE47] 10 ++ pyRepeat [0x304, 0x305, 0x30D, 0x342, 0x35B, 0x352] 3

/-- Embeds `down_stack`: Thai below vowel sara u U+0E38 repeated 5 times,
then the 6-mark combining-below group repeated 2 times. -/
def down_stack : List Nat :=
  pyRepeat [0xE38] 5 ++ pyRepeat [0x317, 0x316, 0x320, 0x329, 0x32A, 0x330] 2

/-- Embeds `monster = base + side_wall + up_stack + down_stack`. -/
def monster : List Nat := base ++ side_wall ++ up_stack ++ down_stack

/-- The trace of the glyph script: reconfigure stdout to utf-8, then
`print(monster)`. -/
def glyphTrace : List Effect :=
  [Effect.reconfigureStdout "utf-8", Effect.printStdout monster]

/-- Running the glyph script in a process environment.  The source reads no
argument, no stdin and no environment variable, so the trace is independent
of `env`. -/
def glyphRun (env : Env) : List Effect := glyphTrace

/-- Decides whether a code point is a Unicode combining or enclosing mark in
the blocks the script draws from: Combining Diacritical Marks (U+0300 to
U+036F, category Mn), Combining Diacritical Marks for Symbols (U+20D0 to
U+20F0, categories Mn and Me, containing the enclosing circle, square and
diamond), and the Thai combining vowel and tone marks (U+0E31,
U+0E34 to U+0E3A, U+0E47 to U+0E4E, category Mn). -/
def isCombiningOrEnclosingMark (c : Nat) : Bool :=
  (0x300 ≤ c && c ≤ 0x36F) ||
  (0x20D0 ≤ c && c ≤ 0x20F0) ||
  (c == 0xE31 || (0xE34 ≤ c && c ≤ 0xE3A) || (0xE47 ≤ c && c ≤ 0xE4E))

/-- Bytes that reach standard output from a trace, given a family of
encoders (one per encoding name) and the encoding stdout starts in.
`sys.stdout.reconfigure(encoding=e)` switches the current encoding to `e`;
Python `print(s)` writes `s` followed by a newline in the current encoding. -/
def writtenBytes (encode : String → List Nat → List Nat) :
    List Effect → String → List Nat
  | [], _ => []
  | Effect.reconfigureStdout e :: rest, _ => writtenBytes encode rest e
  | Effect.printStdout s :: rest, enc =>
      encode enc (s ++ [0x0A]) ++ writtenBytes encode rest enc
  | _ :: rest, enc => writtenBytes encode rest enc

/-- Model identifier passed to `generate_content` in `testgeneration.py`. -/
def modelName : String := "gemini-2.5-flash-image"

/-- The fixed prompt passed to `generate_content` in `testgeneration.py`. -/
def promptText : String :=
  "Create a picture of a futuristic banana with neon lights in a cyberpunk city."

/-- The `for part in response.parts` loop: for each part in order, display it
as an image exactly when it carries `inline_data`. -/
def loopBody : List Part → List Effect
  | [] => []
  | p :: rest =>
      (if p.inline_data then [Effect.showImage p] else []) ++ loopBody rest

/-- Running the image script against an API oracle: one `generate_content`
call with the fixed model and prompt, then the display loop over the parts of
the response that call returned. -/
def imageRun (api : String → String → Response) : List Effect :=
  let response := api modelName promptText
  Effect.networkGenerateContent modelName promptText :: loopBody response.parts

/-- Decides whether an effect is an operation on standard output. -/
def isStdoutEffect : Effect → Bool
  | Effect.reconfigureStdout _ => true
  | Effect.printStdout _ => true
  | _ => false

/-- Decides whether an effect is one of the two the image script may perform:
the network API call or displaying an image. -/
def isImageScriptEffect : Effect → Bool
  | Effect.networkGenerateContent _ _ => true
  | Effect.showImage _ => true
  | _ => false

/-- Decides whether an effect reads from the process environment. -/
def isInputEffect : Effect → Bool
  | Effect.readStdin => true
  | Effect.getEnvVar _ => true
  | _ => false

/-- Decides whether an effect is the generate-content API call. -/
def isApiCall : Effect → Bool
  | Effect.networkGenerateContent _ _ => true
  | _ => false

/-- The display loop with each fallible operation an `Except`-valued oracle:
`as_image` and `image.show()` can raise.  The source contains no
`try`/`except`, so every error short-circuits the rest of the loop. -/
def loopE {ε Img : Type} (as_image : Part → Except ε Img)
    (show_image : Img → Except ε Unit) : List Part → Except ε Unit
  | [] => Except.ok ()
  | p :: rest =>
      if p.inline_data then
        match as_image p with
        | Except.error e => Except.error e
        | Except.ok img =>
          match show_image img with
          | Except.error e => Except.error e
          | Except.ok _ => loopE as_image show_image rest
      else loopE as_image show_image rest

/-- The image script with fallible oracles: the `generate_content` call can
raise, and then the loop runs with its fallible operations.  No construct of
the source catches, transforms or suppresses an error. -/
def imageRunE {ε Img : Type} (generate_content : Except ε Response)
    (as_image : Part → Except ε Img) (show_image : Img → Except ε Unit) :
    Except ε Unit :=
  match generate_content with
  | Except.error e => Except.error e
  | Except.ok response => loopE as_image show_image response.parts

/-- The glyph script with fallible oracles: `sys.stdout.reconfigure` can
raise, then `print(monster)` can raise; nothing in the source catches. -/
def glyphRunE {ε : Type} (reconfigure : Except ε Unit)
    (print_op : List Nat → Except ε Unit) : Except ε Unit :=
  match reconfigure with
  | Except.error e => Except.error e
  | Except.ok _ => print_op monster

/-- The display loop run with explicit fuel: `none` means the fuel ran out
before the iteration finished. -/
def loopBodyFuel : Nat → List Part → Option (List Effect)
  | _, [] => some []
  | 0, _ :: _ => none
  | fuel + 1, p :: rest =>
      (loopBodyFuel fuel rest).map
        (fun t => (if p.inline_data then [Effect.showImage p] else []) ++ t)

/-- The glyph script's two statements in source order. -/
inductive GlyphStmt where
  | reconfigureStmt
  | printStmt
deriving DecidableEq, Repr

/-- The glyph script as a statement list. -/
def glyphProgram : List GlyphStmt := [GlyphStmt.reconfigureStmt, GlyphStmt.printStmt]

/-- Effect of executing one statement of the glyph script. -/
def execGlyphStmt : GlyphStmt → Effect
  | GlyphStmt.reconfigureStmt => Effect.reconfigureStdout "utf-8"
  | GlyphStmt.printStmt => Effect.printStdout monster

/-- State of the glyph script's sequential execution: a program counter and
the trace emitted so far. -/
structure GState where
  pc : Nat
  trace : List Effect
deriving DecidableEq, Repr

/-- Small-step relation for the glyph script: execute the statement at the
program counter, extend the trace, advance the counter. -/
inductive GlyphStep : GState → GState → Prop where
  | exec (s : GState) (stmt : GlyphStmt) :
      glyphProgram.get? s.pc = some stmt →
      GlyphStep s ⟨s.pc + 1, s.trace ++ [execGlyphStmt stmt]⟩

/-- Control state of the image script's sequential execution. -/
inductive IState where
  | start
  | looping (remaining : List Part) (trace : List Effect)
  | finished (trace : List Effect)
deriving DecidableEq, Repr

/-- Small-step relation for the image script against an API oracle: the call,
then one loop iteration per part (display or skip), then loop exit. -/
inductive ImageStep (api : String → String → Response) : IState → IState → Prop where
  | callApi :
      ImageStep api IState.start
        (IState.looping (api modelName promptText).parts
          [Effect.networkGenerateContent modelName promptText])
  | loopShow (p : Part) (rest : List Part) (tr : List Effect) :
      p.inline_data = true →
      ImageStep api (IState.looping (p :: rest) tr)
        (IState.looping rest (tr ++ [Effect.showImage p]))
  | loopSkip (p : Part) (rest : List Part) (tr : List Effect) :
      p.inline_data = false →
      ImageStep api (IState.looping (p :: rest) tr)
        (IState.looping rest tr)
  | exitLoop (tr : List Effect) :
      ImageStep api (IState.looping [] tr) (IState.finished tr)

/-- The display loop shows, in order, exactly the parts carrying
`inline_data`. -/
theorem loopBody_eq_filter_map (l : List Part) :
    loopBody l = (l.filter (fun p => p.inline_data)).map Effect.showImage := by
  induction l with
  | nil => rfl
  | cons p rest ih =>
    by_cases hp : p.inline_data = true
    · simp [loopBody, List.filter, hp, ih]
    · simp only [Bool.not_eq_true] at hp
      simp [loopBody, List.filter, hp, ih]

/-- The display loop performs no API call. -/
theorem loopBody_countP_api (l : List Part) :
    (loopBody l).countP isApiCall = 0 := by
  induction l with
  | nil => rfl
  | cons p rest ih =>
    by_cases hp : p.inline_data = true
    · simp [loopBody, hp, List.countP_cons, isApiCall, ih]
    · simp only [Bool.not_eq_true] at hp
      simp [loopBody, hp, ih]

/-- Every effect the display loop emits is an image-script effect. -/
theorem loopBody_all_image (l : List Part) :
    (loopBody l).all isImageScriptEffect = true := by
  induction l with
  | nil => rfl
  | cons p rest ih =>
    by_cases hp : p.inline_data = true
    · simp [loopBody, hp, isImageScriptEffect, ih]
    · simp only [Bool.not_eq_true] at hp
      simp [loopBody, hp, ih]

/-- Fuel equal to the number of parts suffices for the fuelled loop, and it
then computes exactly the unfuelled loop's trace. -/
theorem loopBodyFuel_complete (l : List Part) :
    loopBodyFuel l.length l = some (loopBody l) := by
  induction l with
  | nil => rfl
  | cons p rest ih =>
    simp [loopBodyFuel, loopBody, ih]

/-- Any error the display loop returns is an error some oracle operation
returned, unchanged. -/
theorem loopE_error_source {ε Img : Type} (as_image : Part → Except ε Img)
    (show_image : Img → Except ε Unit) (l : List Part) (e : ε)
    (h : loopE as_image show_image l = Except.error e) :
    (∃ p, as_image p = Except.error e) ∨ (∃ img, show_image img = Except.error e) := by
  induction l with
  | nil => simp [loopE] at h
  | cons p rest ih =>
    by_cases hp : p.inline_data = true
    · simp only [loopE, hp, if_true] at h
      split at h
      · rename_i eA hai
        obtain rfl : eA = e := by injection h
        exact Or.inl ⟨p, hai⟩
      · rename_i img hai
        split at h
        · rename_i eS hsi
          obtain rfl : eS = e := by injection h
          exact Or.inr ⟨img, hsi⟩
        · exact ih h
    · simp only [Bool.not_eq_true] at hp
      simp only [loopE, hp, Bool.false_eq_true, if_false] at h
      exact ih h

/-- When no part carries `inline_data`, the loop emits nothing and the
fallible loop succeeds without invoking any oracle. -/
theorem loopE_ok_of_no_inline {ε Img : Type} (as_image : Part → Except ε Img)
    (show_image : Img → Except ε Unit) (l : List Part)
    (h : ∀ p ∈ l, p.inline_data = false) :
    loopBody l = [] ∧ loopE as_image show_image l = Except.ok () := by
  induction l with
  | nil => exact ⟨rfl, rfl⟩
  | cons p rest ih =>
    have hp : p.inline_data = false := h p (List.mem_cons_self p rest)
    have hrest : ∀ q ∈ rest, q.inline_data = false :=
      fun q hq => h q (List.mem_cons_of_mem p hq)
    obtain ⟨h1, h2⟩ := ih hrest
    constructor
    · simp [loopBody, hp, h1]
    · simp [loopE, hp, h2]

/-- C1: the glyph script prints exactly the string
`monster = base + side_wall + up_stack + down_stack`; `base` is the single
Thai character ko kai U+0E01, and every code point after it is a Unicode
combining or enclosing mark, concatenated onto the one base character in the
fixed order side walls, up stack, down stack. -/
theorem C1_glyph_prints_stacked_monster :
    (∀ env : Env, glyphRun env =
      [Effect.reconfigureStdout "utf-8", Effect.printStdout monster]) ∧
    monster = base ++ side_wall ++ up_stack ++ down_stack ∧
    monster.head? = some 0xE01 ∧
    (monster.drop 1).all isCombiningOrEnclosingMark = true := by
  refine ⟨fun env => rfl, rfl, by decide, by decide⟩

/-- C2: the image script performs exactly one API call, with model
`gemini-2.5-flash-image` and the fixed prompt, as its first action; the rest
of its trace displays, in response order, exactly those parts that carry
`inline_data`. -/
theorem C2_single_api_call_then_display (api : String → String → Response) :
    (imageRun api).countP isApiCall = 1 ∧
    (imageRun api).head? =
      some (Effect.networkGenerateContent "gemini-2.5-flash-image" promptText) ∧
    imageRun api = Effect.networkGenerateContent modelName promptText ::
      ((api modelName promptText).parts.filter (fun p => p.inline_data)).map
        Effect.showImage := by
  refine ⟨?_, rfl, ?_⟩
  · simp [imageRun, List.countP_cons, isApiCall, loopBody_countP_api]
  · simp [imageRun, loopBody_eq_filter_map]

/-- C3: no error-handling construct exists: under the `Except` model, an
error of the API call, of `as_image`, or of `image.show` makes the image
script return an error, every returned error is one an oracle raised
unchanged, and likewise any failure of the glyph script's two statements
propagates uncaught. -/
theorem C3_errors_propagate_uncaught {ε Img : Type}
    (generate_content : Except ε Response) (as_image : Part → Except ε Img)
    (show_image : Img → Except ε Unit) (reconfigure : Except ε Unit)
    (print_op : List Nat → Except ε Unit) (e : ε) :
    (generate_content = Except.error e →
      imageRunE generate_content as_image show_image = Except.error e) ∧
    (imageRunE generate_content as_image show_image = Except.error e →
      generate_content = Except.error e ∨
      (∃ p, as_image p = Except.error e) ∨
      (∃ img, show_image img = Except.error e)) ∧
    (reconfigure = Except.error e →
      glyphRunE reconfigure print_op = Except.error e) ∧
    (glyphRunE reconfigure print_op = Except.error e →
      reconfigure = Except.error e ∨ print_op monster = Except.error e) := by
  refine ⟨?_, ?_, ?_, ?_⟩
  · intro h; rw [h]; rfl
  · intro h
    cases hgc : generate_content with
    | error eA =>
      rw [hgc] at h
      simp only [imageRunE] at h
      obtain rfl : eA = e := by injection h
      exact Or.inl rfl
    | ok resp =>
      rw [hgc] at h
      simp only [imageRunE] at h
      exact Or.inr (loopE_error_source as_image show_image resp.parts e h)
  · intro h; rw [h]; rfl
  · intro h
    cases hrc : reconfigure with
    | error eA =>
      rw [hrc] at h
      simp only [glyphRunE] at h
      obtain rfl : eA = e := by injection h
      exact Or.inl rfl
    | ok u =>
      rw [hrc] at h
      simp only [glyphRunE] at h
      exact Or.inr h

/-- Witness for C3 at a concrete input: a failing API call propagates its
error value unchanged through the image script. -/
theorem C3_errors_propagate_uncaught_witness :
    imageRunE (Except.error 7 : Except Nat Response)
      (fun _ => Except.ok (0 : Nat)) (fun _ => Except.ok ()) =
      Except.error 7 :=
  (C3_errors_propagate_uncaught (Except.error 7)
    (fun _ => Except.ok (0 : Nat)) (fun _ => Except.ok ())
    (Except.ok ()) (fun _ => Except.ok ()) 7).1 rfl

/-- C4: every effect of the glyph script operates on standard output, and
every effect of the image script is the network API call or an image
display; neither writes a file nor reads the process environment. -/
theorem C4_frame_effects (env : Env) (api : String → String → Response) :
    (glyphRun env).all isStdoutEffect = true ∧
    (imageRun api).all isImageScriptEffect = true := by
  constructor
  · rfl
  · simp [imageRun, isImageScriptEffect, loopBody_all_image]

/-- C5: the glyph script reads no input and depends on no environment: its
trace performs no input effect, and any two runs, whatever their process
environments, produce the identical trace. -/
theorem C5_deterministic_output (env₁ env₂ : Env) :
    glyphRun env₁ = glyphRun env₂ ∧
    (glyphRun env₁).countP isInputEffect = 0 := by
  exact ⟨rfl, rfl⟩

/-- C6: the printed string consists of exactly 61 code points: 1 base
character, 15 enclosing marks (3 distinct marks times 5), 28 above marks
(10 Thai mai taikhu plus a 6-mark Latin group times 3), and 17 below marks
(5 Thai below vowels plus a 6-mark group times 2). -/
theorem C6_monster_has_61_codepoints :
    monster.length = 61 ∧ base.length = 1 ∧ side_wall.length = 15 ∧
    up_stack.length = 28 ∧ down_stack.length = 17 := by
  decide

/-- C7: parts without `inline_data` are silently skipped: when no part of
the response carries `inline_data`, the loop displays no image, the script's
trace is just the API call, and the fallible run still succeeds. -/
theorem C7_no_inline_data_is_skipped {ε Img : Type} (resp : Response)
    (as_image : Part → Except ε Img) (show_image : Img → Except ε Unit)
    (h : ∀ p ∈ resp.parts, p.inline_data = false) :
    loopBody resp.parts = [] ∧
    imageRunE (Except.ok resp) as_image show_image = Except.ok () ∧
    imageRun (fun _ _ => resp) =
      [Effect.networkGenerateContent modelName promptText] := by
  obtain ⟨h1, h2⟩ := loopE_ok_of_no_inline as_image show_image resp.parts h
  refine ⟨h1, h2, ?_⟩
  simp [imageRun, h1]

/-- Witness for C7 at a concrete response whose single part carries no
`inline_data`. -/
theorem C7_no_inline_data_is_skipped_witness :
    loopBody (Response.mk [Part.mk false 0]).parts = [] ∧
    imageRunE (Except.ok (Response.mk [Part.mk false 0]) : Except Nat Response)
      (fun _ => Except.ok (0 : Nat)) (fun _ => Except.ok ()) = Except.ok () ∧
    imageRun (fun _ _ => Response.mk [Part.mk false 0]) =
      [Effect.networkGenerateContent modelName promptText] :=
  C7_no_inline_data_is_skipped (Response.mk [Part.mk false 0])
    (fun _ => Except.ok (0 : Nat)) (fun _ => Except.ok ()) (by decide)

/-- C8: both scripts terminate: the image script's loop, run with fuel equal
to the (finite) number of response parts, completes and computes the loop's
trace, and the glyph script's computation is a fixed finite list of 61 code
points emitted by a trace of exactly 2 statements. -/
theorem C8_total_termination :
    (∀ parts : List Part, loopBodyFuel parts.length parts = some (loopBody parts)) ∧
    monster.length = 61 ∧
    (∀ env : Env, (glyphRun env).length = 2) := by
  exact ⟨loopBodyFuel_complete, by decide, fun env => rfl⟩

/-- C9 as stated is false: Python `print` appends a newline, so the bytes
written to stdout are the UTF-8 encoding of `monster` followed by the
newline byte 0x0A, not exactly the UTF-8 encoding of `monster`. -/
theorem C9_counterexample :
    writtenBytes (fun _ => utf8Encode) (glyphRun (Env.mk [] [] [])) "cp1252" ≠
      utf8Encode monster := by
  decide

/-- C9 amended: the glyph script reconfigures stdout to utf-8 before any
output, so for every platform default encoding the bytes written are exactly
the UTF-8 encoding of `monster` followed by the single newline byte that
`print` appends, independent of the default encoding. -/
theorem C9_utf8_bytes_of_monster (encode : String → List Nat → List Nat)
    (dflt : String) (env : Env) (h : encode "utf-8" = utf8Encode) :
    writtenBytes encode (glyphRun env) dflt = utf8Encode monster ++ [0x0A] ∧
    (glyphRun env).head? = some (Effect.reconfigureStdout "utf-8") := by
  refine ⟨?_, rfl⟩
  show writtenBytes encode glyphTrace dflt = utf8Encode monster ++ [0x0A]
  simp only [glyphTrace, writtenBytes, h, List.append_nil]
  decide

/-- Witness for C9 at a concrete encoder family, default encoding and
environment. -/
theorem C9_utf8_bytes_of_monster_witness :
    writtenBytes (fun _ => utf8Encode) (glyphRun (Env.mk [] [] [])) "cp1252" =
      utf8Encode monster ++ [0x0A] :=
  (C9_utf8_bytes_of_monster (fun _ => utf8Encode) "cp1252" (Env.mk [] [] [])
    rfl).1

/-- C10: both scripts are single sequential threads: each small-step relation
is deterministic (every state has at most one successor, so there is no
interleaving), and the final state of each script admits no further step. -/
theorem C10_sequential_single_thread :
    (∀ s t u : GState, GlyphStep s t → GlyphStep s u → t = u) ∧
    (∀ (api : String → String → Response) (s t u : IState),
      ImageStep api s t → ImageStep api s u → t = u) ∧
    (¬ ∃ t, GlyphStep (GState.mk 2 glyphTrace) t) ∧
    (∀ (api : String → String → Response) (tr : List Effect),
      ¬ ∃ t, ImageStep api (IState.finished tr) t) := by
  refine ⟨?_, ?_, ?_, ?_⟩
  · intro s t u ht hu
    cases ht with
    | exec stmt1 h1 =>
      cases hu with
      | exec stmt2 h2 =>
        rw [h1] at h2
        obtain rfl : stmt1 = stmt2 := by injection h2
        rfl
  · intro api s t u ht hu
    cases ht <;> cases hu <;> simp_all
  · rintro ⟨t, ht⟩
    cases ht with
    | exec stmt h => simp [glyphProgram] at h
  · intro api tr
    rintro ⟨t, ht⟩
    cases ht

/-- Witness for C10 at a concrete pair of steps of the glyph script from its
initial state: determinism makes the two successor states equal. -/
theorem C10_sequential_single_thread_witness :
    GState.mk 1 [Effect.reconfigureStdout "utf-8"] =
      GState.mk 1 [Effect.reconfigureStdout "utf-8"] :=
  C10_sequential_single_thread.1 (GState.mk 0 []) _ _
    (GlyphStep.exec (GState.mk 0 []) GlyphStmt.reconfigureStmt rfl)
    (GlyphStep.exec (GState.mk 0 []) GlyphStmt.reconfigureStmt rfl)

end Chatbot
